import Mathlib

/-
Verification development for the AutoFire keyboard runner (autofire.py).

The definitions below are a shallow embedding of the multi-slot engine in
src/autofire.py: slot/config validation, boolean coercion, hook
registration, the per-trigger worker lifecycle (start_loop / stop_loop),
atomic re-binding (apply_binding), hot reload (reload_config) and the
timed emission loop (_loop).  Python values appearing in config mappings
are embedded as `PyVal`; backend (keyboard library) effects are recorded
as explicit `KbCall` traces, and backend outcomes are supplied as
parameters.  Time is embedded as exact rationals.
-/

set_option maxRecDepth 4000

/-- ASCII lower-casing of one character, as Python str.lower acts on the
key names and flag strings used here. -/
def pyLowerChar (c : Char) : Char :=
  if 65 ≤ c.toNat ∧ c.toNat ≤ 90 then Char.ofNat (c.toNat + 32) else c

/-- Python str.lower (ASCII fragment), written over the character list so
it evaluates inside the kernel. -/
def pyToLower (s : String) : String := ⟨s.data.map pyLowerChar⟩

/-- Whitespace test of Python str.strip: space, tab, newline, carriage
return, vertical tab, form feed. -/
def pyIsSpace (c : Char) : Bool :=
  c = ' ' || c = '\t' || c = '\n' || c = '\r' || c.toNat = 11 || c.toNat = 12

/-- Python str.strip: whitespace removed from both ends. -/
def pyStrip (s : String) : String :=
  ⟨((s.data.dropWhile pyIsSpace).reverse.dropWhile pyIsSpace).reverse⟩

/-- Composition strip-then-lower applied by _normalize_key and _coerce_bool. -/
def pyStripLower (s : String) : String := pyToLower (pyStrip s)

/-- Embedded Python value, as may appear in a JSON-like config mapping. -/
inductive PyVal where
  | pynone
  | pybool (b : Bool)
  | pyint (n : Int)
  | pyfloat (q : ℚ)
  | pystr (s : String)
  | pylist (l : List PyVal)
  | pydict (d : List (String × PyVal))

/-- Python generic truthiness, bool(value): None and empty/zero values are falsy. -/
def pyTruthy : PyVal → Bool
  | .pynone => false
  | .pybool b => b
  | .pyint n => if n = 0 then false else true
  | .pyfloat q => if q = 0 then false else true
  | .pystr s => if s = "" then false else true
  | .pylist l => if l.isEmpty then false else true
  | .pydict d => if d.isEmpty then false else true

/-- Python str() on the scalar values that reach _normalize_key; the
non-scalar branches are stand-ins never produced by the inputs studied here. -/
def pyStr : PyVal → String
  | .pystr s => s
  | .pybool true => "True"
  | .pybool false => "False"
  | .pyint n => toString n
  | .pyfloat q => toString q
  | .pynone => "None"
  | .pylist _ => "<list>"
  | .pydict _ => "<dict>"

/-- Truncation toward zero, the rounding used by Python int() on a float. -/
def pyTrunc (q : ℚ) : Int := q.num.tdiv (q.den : Int)

/-- Digit-string to number, for the decimal core of Python int() on a string. -/
def parseDigits : List Char → Option Nat
  | [] => none
  | cs =>
    if cs.all Char.isDigit then
      some (cs.foldl (fun a c => a * 10 + (c.toNat - 48)) 0)
    else none

/-- Python int() on a string: surrounding whitespace stripped, optional sign,
then decimal digits; anything else raises ValueError. -/
def parseIntStr (s : String) : Except String Int :=
  match (pyStrip s).data with
  | '+' :: rest =>
    match parseDigits rest with
    | some n => .ok (n : Int)
    | none => .error "ValueError"
  | '-' :: rest =>
    match parseDigits rest with
    | some n => .ok (-(n : Int))
    | none => .error "ValueError"
  | cs =>
    match parseDigits cs with
    | some n => .ok (n : Int)
    | none => .error "ValueError"

/-- Python int(value) for the embedded values: ints pass through, bools map to
0/1, floats truncate toward zero, strings are parsed, and the remaining
types raise TypeError. -/
def pyInt : PyVal → Except String Int
  | .pyint n => .ok n
  | .pybool b => .ok (if b then 1 else 0)
  | .pyfloat q => .ok (pyTrunc q)
  | .pystr s => parseIntStr s
  | _ => .error "TypeError"

/-- Association-list lookup, the first binding for the key (dict access). -/
def alistLookup {α : Type} (k : String) : List (String × α) → Option α
  | [] => none
  | (k0, v) :: rest => if k0 = k then some v else alistLookup k rest

/-- Association-list update, dict assignment semantics: overwrite in place,
else append. -/
def alistInsert {α : Type} (k : String) (v : α) : List (String × α) → List (String × α)
  | [] => [(k, v)]
  | (k0, v0) :: rest =>
    if k0 = k then (k, v) :: rest else (k0, v0) :: alistInsert k v rest

/-- Association-list removal of every binding of the key (dict deletion). -/
def alistRemove {α : Type} (k : String) : List (String × α) → List (String × α)
  | [] => []
  | (k0, v0) :: rest =>
    if k0 = k then alistRemove k rest else (k0, v0) :: alistRemove k rest

/-- mapping.get(key, default). -/
def pyGetD (m : List (String × PyVal)) (k : String) (d : PyVal) : PyVal :=
  (alistLookup k m).getD d

/-- Embedding of _coerce_bool from autofire.py. -/
def coerce_bool (v : PyVal) : Bool :=
  match v with
  | .pybool b => b
  | .pyint _ => pyTruthy v
  | .pyfloat _ => pyTruthy v
  | .pystr s => (["1", "true", "yes", "on"] : List String).contains (pyStripLower s)
  | _ => pyTruthy v

/-- Embedding of _normalize_key from autofire.py; the keyboard backend key
check (keyboard.key_to_scan_codes) is the parameter validKey. -/
def normalize_key (validKey : String → Bool) (v : PyVal) : Except String String :=
  let key := pyStripLower (pyStr (if pyTruthy v then v else .pystr ""))
  if key = "" then .error "Key name cannot be empty"
  else if validKey key then .ok key
  else .error ("Unknown key " ++ key)

/-- MIN_INTERVAL_MS from autofire.py. -/
def MIN_INTERVAL_MS : Int := 1

/-- MAX_INTERVAL_MS from autofire.py. -/
def MAX_INTERVAL_MS : Int := 1000

/-- AutoFireSlot dataclass from autofire.py. -/
structure AutoFireSlot where
  trigger_key : String
  output_key : String
  interval_ms : Int
  pass_through : Bool
  enabled : Bool
deriving DecidableEq, Repr

/-- Default AutoFireSlot (dataclass field defaults). -/
def defaultSlot : AutoFireSlot := ⟨"e", "r", 50, false, true⟩

/-- AutoFireConfig dataclass from autofire.py (post_init turns a missing
slot list into one default slot; construction sites below are explicit). -/
structure AutoFireConfig where
  slots : List AutoFireSlot
deriving DecidableEq, Repr

/-- Embedding of validate_slot from autofire.py. -/
def validate_slot (validKey : String → Bool) (m : List (String × PyVal)) :
    Except String AutoFireSlot :=
  match normalize_key validKey (pyGetD m "triggerKey" (.pystr "e")) with
  | .error e => .error e
  | .ok trigger =>
    match normalize_key validKey (pyGetD m "outputKey" (.pystr "r")) with
    | .error e => .error e
    | .ok output =>
      match pyInt (pyGetD m "intervalMs" (.pyint 50)) with
      | .error _ => .error "intervalMs must be an integer"
      | .ok interval =>
        if MIN_INTERVAL_MS ≤ interval ∧ interval ≤ MAX_INTERVAL_MS then
          .ok ⟨trigger, output, interval,
               coerce_bool (pyGetD m "passThrough" (.pybool false)),
               coerce_bool (pyGetD m "enabled" (.pybool true))⟩
        else
          .error "intervalMs must be between 1 and 1000 inclusive"

/-- Per-element validation of the slots list inside validate_config. -/
def validateSlots (validKey : String → Bool) :
    List PyVal → Nat → Except String (List AutoFireSlot)
  | [], _ => .ok []
  | d :: rest, idx =>
    match d with
    | .pydict dm =>
      match validate_slot validKey dm with
      | .error e => .error ("Slot " ++ toString idx ++ ": " ++ e)
      | .ok s =>
        match validateSlots validKey rest (idx + 1) with
        | .error e => .error e
        | .ok ss => .ok (s :: ss)
    | _ => .error ("Slot " ++ toString idx ++ " must be an object")

/-- Embedding of validate_config from autofire.py. -/
def validate_config (validKey : String → Bool) (m : List (String × PyVal)) :
    Except String AutoFireConfig :=
  if (alistLookup "triggerKey" m).isSome ∧ (alistLookup "slots" m).isNone then
    match validate_slot validKey m with
    | .error e => .error e
    | .ok slot => .ok ⟨[slot]⟩
  else
    match pyGetD m "slots" (.pylist []) with
    | .pylist slotsData =>
      if slotsData.isEmpty then .ok ⟨[defaultSlot]⟩
      else
        match validateSlots validKey slotsData 0 with
        | .error e => .error e
        | .ok slots => .ok ⟨slots⟩
    | _ => .error "slots must be a list"

/-- Concrete backend key check used by closed witnesses: accepts e, r, x. -/
def demoValidKey (s : String) : Bool := s = "e" || s = "r" || s = "x"

/-- Observable call into the keyboard backend. -/
inductive KbCall where
  | blockKey (k : String)
  | unblockKey (k : String)
  | pressAndRelease (k : String)
  | isPressedQ (k : String)
  | onPressKey (k : String)
  | onReleaseKey (k : String)
  | unhookCall (h : Nat)
  | releaseKey (k : String)
deriving DecidableEq, Repr

/-- Outcome of one backend call, as the Python code classifies exceptions:
errCaught stands for ValueError/RuntimeError/OSError (handled in-place),
errUncaught for any other exception (propagates to the caller). -/
inductive CallOutcome where
  | ok
  | errCaught
  | errUncaught
deriving DecidableEq, Repr

/-- Runtime entry of _slot_workers for one trigger key: the slot, the
stop_signal and running events, and whether block_key succeeded at arming. -/
structure Worker where
  slot : AutoFireSlot
  stopSignal : Bool
  running : Bool
  blocked : Bool
deriving DecidableEq, Repr

/-- Hook-handle maps of AutoFireApp (_press_handles / _release_handles)
plus the fresh-handle counter standing for backend handle identity. -/
structure HookState where
  pressHandles : List (String × Nat)
  releaseHandles : List (String × Nat)
  nextHandle : Nat
deriving DecidableEq, Repr

/-- Whole-controller state relevant to the claims: active config, hook
handles, and the per-trigger worker map. -/
structure AppState where
  config : AutoFireConfig
  hooks : HookState
  workers : List (String × Worker)
deriving DecidableEq, Repr

/-- Result of _register_hooks: the new handle state, the backend calls made,
the warnings printed for caught per-slot failures, and an uncaught
exception if one escaped. -/
structure RegResult where
  state : HookState
  calls : List KbCall
  warnings : List String
  err : Option String
deriving DecidableEq, Repr

/-- Embedding of _unregister_hooks: unhook every stored handle (failures
swallowed) and clear both maps. -/
def unregister_hooks (st : HookState) : HookState × List KbCall :=
  (⟨[], [], st.nextHandle⟩,
   st.pressHandles.map (fun p => KbCall.unhookCall p.2) ++
   st.releaseHandles.map (fun p => KbCall.unhookCall p.2))

/-- Registration pass of _register_hooks over the slot list: disabled slots
are skipped; per enabled slot, on_press_key and on_release_key are called
and both handles stored; a caught backend error prints a warning and skips
the slot; an uncaught one aborts the loop and propagates. -/
def registerSlots (regOut : String → CallOutcome) :
    List AutoFireSlot → HookState → RegResult
  | [], st => ⟨st, [], [], none⟩
  | s :: rest, st =>
    if s.enabled then
      match regOut s.trigger_key with
      | .ok =>
        let h1 := st.nextHandle
        let h2 := st.nextHandle + 1
        let st1 : HookState :=
          ⟨alistInsert s.trigger_key h1 st.pressHandles,
           alistInsert s.trigger_key h2 st.releaseHandles,
           st.nextHandle + 2⟩
        let r := registerSlots regOut rest st1
        ⟨r.state, .onPressKey s.trigger_key :: .onReleaseKey s.trigger_key :: r.calls,
         r.warnings, r.err⟩
      | .errCaught =>
        let r := registerSlots regOut rest st
        ⟨r.state, .onPressKey s.trigger_key :: r.calls,
         ("Warning: unable to register key " ++ s.trigger_key) :: r.warnings, r.err⟩
      | .errUncaught =>
        ⟨st, [.onPressKey s.trigger_key], [],
         some ("register failed: " ++ s.trigger_key)⟩
    else registerSlots regOut rest st

/-- Embedding of AutoFireApp._register_hooks: unregister everything, then
register every enabled slot of the config. -/
def register_hooks (regOut : String → CallOutcome) (cfg : AutoFireConfig)
    (st : HookState) : RegResult :=
  let u := unregister_hooks st
  let r := registerSlots regOut cfg.slots u.1
  ⟨r.state, u.2 ++ r.calls, r.warnings, r.err⟩

/-- Slot selection inside start_loop: the first enabled slot whose
trigger_key matches. -/
def findSlot (cfg : AutoFireConfig) (k : String) : Option AutoFireSlot :=
  cfg.slots.find? (fun s => s.enabled && s.trigger_key == k)

/-- Result of start_loop: the worker map afterwards, the backend calls made,
and the warnings printed. -/
structure StartResult where
  workers : List (String × Worker)
  calls : List KbCall
  warnings : List String
deriving DecidableEq, Repr

/-- Arming part of start_loop, reached when no runner is currently marked
running for the trigger: find the enabled slot; block the trigger when
pass_through is off (a caught failure downgrades to a warning with
blocked = false); then record the spawned worker as running. -/
def startArm (cfg : AutoFireConfig) (blockOut : CallOutcome) (k : String)
    (ws : List (String × Worker)) : Except String StartResult :=
  match findSlot cfg k with
  | none => .ok ⟨ws, [], []⟩
  | some slot =>
    if slot.pass_through then
      .ok ⟨alistInsert k ⟨slot, false, true, false⟩ ws, [], []⟩
    else
      match blockOut with
      | .ok =>
        .ok ⟨alistInsert k ⟨slot, false, true, true⟩ ws, [.blockKey k], []⟩
      | .errCaught =>
        .ok ⟨alistInsert k ⟨slot, false, true, false⟩ ws, [.blockKey k],
             ["Validation error: unable to block " ++ k]⟩
      | .errUncaught => .error ("block_key failed: " ++ k)

/-- Embedding of AutoFireApp.start_loop for one trigger key. -/
def start_loop (cfg : AutoFireConfig) (blockOut : CallOutcome) (k : String)
    (ws : List (String × Worker)) : Except String StartResult :=
  match alistLookup k ws with
  | some w => if w.running then .ok ⟨ws, [], []⟩ else startArm cfg blockOut k ws
  | none => startArm cfg blockOut k ws

/-- Result of stop_loop: the worker map afterwards and the backend calls. -/
structure StopResult where
  workers : List (String × Worker)
  calls : List KbCall
deriving DecidableEq, Repr

/-- Embedding of AutoFireApp.stop_loop: a missing entry is a no-op;
otherwise the stop signal is set, the thread joined, unblock_key called
iff the trigger was blocked at arming, and the entry deleted. -/
def stop_loop (k : String) (ws : List (String × Worker)) : StopResult :=
  match alistLookup k ws with
  | none => ⟨ws, []⟩
  | some w =>
    ⟨alistRemove k ws, if w.blocked then [.unblockKey k] else []⟩

/-- Iterating stop_loop over a snapshot of the worker keys, as shutdown,
apply_binding and emergency_stop do. -/
def stopAllFrom (keys : List String) (ws : List (String × Worker)) :
    List (String × Worker) × List KbCall :=
  match keys with
  | [] => (ws, [])
  | k :: rest =>
    let r := stop_loop k ws
    let t := stopAllFrom rest r.workers
    (t.1, r.calls ++ t.2)

/-- The interval computation of _loop:
interval_s = max(MIN_INTERVAL_MS / 1000, interval_ms / 1000). -/
def intervalS (ms : Int) : ℚ := max ((MIN_INTERVAL_MS : ℚ) / 1000) ((ms : ℚ) / 1000)

/-- Post-emission schedule update of _loop: next_tick += interval_s, then the
catch-up branch exactly as written in the source
(if next_tick - now_value > 5 * interval_s: next_tick = now_value + interval_s). -/
def advanceNextTick (i nowValue nt : ℚ) : ℚ :=
  let nt1 := nt + i
  if nt1 - nowValue > 5 * i then nowValue + i else nt1

/-- Environment of one _loop iteration: the stop flag read at the top, the
is_pressed answer (none = the call raised), the clock reading, and whether
press_and_release would succeed if attempted. -/
structure LoopIter where
  stopSet : Bool
  pressed : Option Bool
  nowValue : ℚ
  emitOk : Bool

/-- Observable result of running _loop: backend calls, the positive sleeps
performed, and the final next_tick. -/
structure LoopResult where
  calls : List KbCall
  sleeps : List ℚ
  nextTick : ℚ
deriving Repr

/-- Embedding of the body of AutoFireApp._loop, driven by an explicit
iteration environment; exits on stop flag, is_pressed false or raising,
or emit failure.  The finally block (stop_signal.set, running.clear) never
touches the keyboard backend. -/
def loopBody (k out : String) (i : ℚ) (nt : ℚ) : List LoopIter → LoopResult
  | [] => ⟨[], [], nt⟩
  | it :: rest =>
    if it.stopSet then ⟨[], [], nt⟩
    else
      match it.pressed with
      | none => ⟨[.isPressedQ k], [], nt⟩
      | some false => ⟨[.isPressedQ k], [], nt⟩
      | some true =>
        if it.nowValue ≥ nt then
          if it.emitOk then
            let nt2 := advanceNextTick i it.nowValue nt
            let sleepFor := max 0 (min i (nt2 - it.nowValue))
            let r := loopBody k out i nt2 rest
            ⟨.isPressedQ k :: .pressAndRelease out :: r.calls,
             (if sleepFor > 0 then [sleepFor] else []) ++ r.sleeps, r.nextTick⟩
          else ⟨[.isPressedQ k, .pressAndRelease out], [], nt⟩
        else
          let sleepFor := max 0 (min i (nt - it.nowValue))
          let r := loopBody k out i nt rest
          ⟨.isPressedQ k :: r.calls,
           (if sleepFor > 0 then [sleepFor] else []) ++ r.sleeps, r.nextTick⟩

/-- Loop of a slot as _loop runs it: trigger and output keys and the
computed interval come from the slot. -/
def runnerLoop (slot : AutoFireSlot) (nt : ℚ) (iters : List LoopIter) : LoopResult :=
  loopBody slot.trigger_key slot.output_key (intervalS slot.interval_ms) nt iters

/-- Error escaping apply_binding: the RuntimeError it raises itself, or an
uncaught exception from re-registering the previous hooks. -/
inductive AppErr where
  | runtime (msg : String)
  | uncaught (msg : String)
deriving DecidableEq, Repr

/-- Result of apply_binding: final state, backend calls, optional error. -/
structure ApplyResult where
  state : AppState
  calls : List KbCall
  err : Option AppErr
deriving DecidableEq, Repr

/-- Embedding of AutoFireApp.apply_binding: no-op on an equal config; else
stop every worker, install the new config and hooks; if registration
raises, restore the previous config, re-register its hooks, and raise
RuntimeError (or propagate an exception of the restore itself). -/
def apply_binding (regOut : String → CallOutcome) (newCfg : AutoFireConfig)
    (st : AppState) : ApplyResult :=
  if newCfg = st.config then ⟨st, [], none⟩
  else
    let s := stopAllFrom (st.workers.map Prod.fst) st.workers
    let r := register_hooks regOut newCfg st.hooks
    match r.err with
    | none => ⟨⟨newCfg, r.state, s.1⟩, s.2 ++ r.calls, none⟩
    | some e =>
      let r2 := register_hooks regOut st.config r.state
      ⟨⟨st.config, r2.state, s.1⟩, s.2 ++ r.calls ++ r2.calls,
       some (match r2.err with
             | none => .runtime ("Failed to apply new configuration: " ++ e)
             | some e2 => .uncaught e2)⟩

/-- Result of reload_config: the boolean it returns, the state, the backend
calls, the messages printed, and an exception escaping it (only possible
via an uncaught restore failure inside apply_binding). -/
structure ReloadResult where
  changed : Bool
  state : AppState
  calls : List KbCall
  messages : List String
  err : Option String
deriving DecidableEq, Repr

/-- Embedding of AutoFireApp.reload_config; reading and validating the
config file (load_config) is abstracted as the Except-valued loadResult.
A load failure is reported and returns False with nothing touched; an
unchanged config returns False; otherwise apply_binding runs, its
RuntimeError being caught and reported. -/
def reload_config (regOut : String → CallOutcome)
    (loadResult : Except String AutoFireConfig) (st : AppState) : ReloadResult :=
  match loadResult with
  | .error e => ⟨false, st, [], ["Validation error: " ++ e], none⟩
  | .ok newCfg =>
    if newCfg = st.config then ⟨false, st, [], [], none⟩
    else
      let r := apply_binding regOut newCfg st
      match r.err with
      | some (.runtime e) => ⟨false, r.state, r.calls, ["Validation error: " ++ e], none⟩
      | some (.uncaught e) => ⟨false, r.state, r.calls, [], some e⟩
      | none => ⟨true, r.state, r.calls, ["Config reloaded"], none⟩

/-- Decidable equality for Except values over decidable components. -/
instance {ε α : Type} [DecidableEq ε] [DecidableEq α] : DecidableEq (Except ε α) := fun a b =>
  match a, b with
  | .ok x, .ok y => decidable_of_iff (x = y) (by simp)
  | .error x, .error y => decidable_of_iff (x = y) (by simp)
  | .ok _, .error _ => .isFalse (by simp)
  | .error _, .ok _ => .isFalse (by simp)

/-- The rational 50.7, written with an explicit numerator and denominator
so that it evaluates inside the kernel. -/
def q507 : ℚ := ⟨507, 10, by decide, by decide⟩

/-- Config mapping whose intervalMs is the non-integral number 50.7. -/
def mInterval507 : List (String × PyVal) :=
  [("triggerKey", .pystr "e"), ("outputKey", .pystr "r"),
   ("intervalMs", .pyfloat q507)]

/-- Config with two enabled slots sharing the trigger key e. -/
def dupTriggerCfg : AutoFireConfig :=
  ⟨[⟨"e", "r", 50, false, true⟩, ⟨"e", "x", 50, false, true⟩]⟩

/-- Backend in which every hook registration succeeds. -/
def allOk : String → CallOutcome := fun _ => .ok

/-- Slot with trigger e, output r, 1000 ms, suppression on. -/
def oneSlot : AutoFireSlot := ⟨"e", "r", 1000, false, true⟩

/-- Single-slot config holding oneSlot. -/
def oneSlotCfg : AutoFireConfig := ⟨[oneSlot]⟩

/-- Backend calls from arming oneSlotCfg (block_key succeeds) and then
running its loop until the loop dies from an emit failure on the first
iteration, the finally block included: the whole life of that runner
thread up to and including its death. -/
def emitFailDeathCalls : List KbCall :=
  match start_loop oneSlotCfg .ok "e" [] with
  | .ok r => r.calls ++ (runnerLoop oneSlot 0 [⟨false, some true, 0, false⟩]).calls
  | .error _ => []

/-- Loop environment of a 10-interval stall: the clock frozen at 10 with
interval_s = 1, trigger held, every emission succeeding, for 12 iterations. -/
def stallTrace : List LoopIter := List.replicate 12 ⟨false, some true, 10, true⟩

/-- Number of occurrences of one backend call in a trace. -/
def countCall (c : KbCall) : List KbCall → Nat
  | [] => 0
  | c0 :: rest => (if c0 = c then 1 else 0) + countCall c rest

/-- Backend whose hook registration raises an uncaught exception on key q
and succeeds elsewhere. -/
def failQ : String → CallOutcome := fun k => if k = "q" then .errUncaught else .ok

/-- Config with one enabled slot on trigger q. -/
def qCfg : AutoFireConfig := ⟨[⟨"q", "r", 50, false, true⟩]⟩

/-- Controller state with oneSlotCfg active, no hooks, no workers. -/
def baseSt : AppState := ⟨oneSlotCfg, ⟨[], [], 0⟩, []⟩

theorem countCall_append (c : KbCall) (a b : List KbCall) :
    countCall c (a ++ b) = countCall c a + countCall c b := by
  induction a with
  | nil => simp [countCall]
  | cons x rest ih => simp [countCall, ih]; ring

theorem countCall_eq_zero (c : KbCall) (l : List KbCall)
    (h : ∀ x ∈ l, x ≠ c) : countCall c l = 0 := by
  induction l with
  | nil => rfl
  | cons x rest ih =>
    have hx : x ≠ c := h x (List.mem_cons_self x rest)
    simp [countCall, hx]
    exact ih fun y hy => h y (List.mem_cons_of_mem x hy)

theorem alistLookup_insert {α : Type} (l : List (String × α)) (t k : String) (v : α) :
    alistLookup k (alistInsert t v l) = if t = k then some v else alistLookup k l := by
  induction l with
  | nil => simp [alistInsert, alistLookup]
  | cons p rest ih =>
    obtain ⟨k0, v0⟩ := p
    by_cases h0 : k0 = t
    · subst h0
      by_cases hk : k0 = k <;> simp [alistInsert, alistLookup, hk]
    · simp only [alistInsert, if_neg h0]
      by_cases hk : k0 = k
      · subst hk
        have ht : ¬(t = k0) := fun h => h0 h.symm
        simp [alistLookup, ht]
      · simp [alistLookup, hk, ih]

theorem alistLookup_remove {α : Type} (l : List (String × α)) (k : String) :
    alistLookup k (alistRemove k l) = none := by
  induction l with
  | nil => rfl
  | cons p rest ih =>
    obtain ⟨k0, v0⟩ := p
    by_cases h0 : k0 = k
    · simp [alistRemove, h0, ih]
    · simp [alistRemove, alistLookup, h0, ih]

theorem mem_alistRemove {α : Type} (l : List (String × α)) (k : String)
    (p : String × α) (hp : p ∈ alistRemove k l) : p ∈ l ∧ p.1 ≠ k := by
  induction l with
  | nil => simp [alistRemove] at hp
  | cons q rest ih =>
    obtain ⟨k0, v0⟩ := q
    by_cases h0 : k0 = k
    · simp only [alistRemove, if_pos h0] at hp
      obtain ⟨h1, h2⟩ := ih hp
      exact ⟨List.mem_cons_of_mem _ h1, h2⟩
    · simp only [alistRemove, if_neg h0] at hp
      rcases List.mem_cons.mp hp with h | h
      · subst h
        exact ⟨List.mem_cons_self _ _, h0⟩
      · obtain ⟨h1, h2⟩ := ih h
        exact ⟨List.mem_cons_of_mem _ h1, h2⟩

theorem alistLookup_none_keys {α : Type} (l : List (String × α)) (k : String)
    (h : alistLookup k l = none) : ∀ p ∈ l, p.1 ≠ k := by
  induction l with
  | nil => intro p hp; simp at hp
  | cons q rest ih =>
    obtain ⟨k0, v0⟩ := q
    intro p hp
    by_cases h0 : k0 = k
    · simp [alistLookup, h0] at h
    · simp only [alistLookup, if_neg h0] at h
      rcases List.mem_cons.mp hp with hq | hq
      · subst hq; exact h0
      · exact ih h p hq

theorem stopAllFrom_empties (keys : List String) :
    ∀ ws : List (String × Worker), (∀ p ∈ ws, p.1 ∈ keys) →
      (stopAllFrom keys ws).1 = [] := by
  induction keys with
  | nil =>
    intro ws h
    cases ws with
    | nil => rfl
    | cons p rest => exact absurd (h p (List.mem_cons_self p rest)) (by simp)
  | cons k rest ih =>
    intro ws h
    show (stopAllFrom (k :: rest) ws).1 = []
    unfold stopAllFrom
    cases hl : alistLookup k ws with
    | none =>
      simp only [stop_loop, hl]
      exact ih ws fun p hp => by
        rcases List.mem_cons.mp (h p hp) with he | he
        · exact absurd he (alistLookup_none_keys ws k hl p hp)
        · exact he
    | some w =>
      simp only [stop_loop, hl]
      exact ih (alistRemove k ws) fun p hp => by
        obtain ⟨h1, h2⟩ := mem_alistRemove ws k p hp
        rcases List.mem_cons.mp (h p h1) with he | he
        · exact absurd he h2
        · exact he

theorem registerSlots_spec (regOut : String → CallOutcome) :
    ∀ (slots : List AutoFireSlot),
      (∀ s ∈ slots, s.enabled = true → regOut s.trigger_key = .ok) →
      ∀ st : HookState,
        (∀ k, countCall (.onPressKey k) (registerSlots regOut slots st).calls =
              (slots.filter (fun s => s.enabled && s.trigger_key == k)).length) ∧
        (registerSlots regOut slots st).warnings = [] ∧
        (registerSlots regOut slots st).err = none ∧
        (∀ k, (alistLookup k (registerSlots regOut slots st).state.pressHandles).isSome =
              ((alistLookup k st.pressHandles).isSome ||
               slots.any (fun s => s.enabled && s.trigger_key == k))) := by
  intro slots
  induction slots with
  | nil => intro _ st; simp [registerSlots, countCall]
  | cons s rest ih =>
    intro hok st
    have hrest : ∀ x ∈ rest, x.enabled = true → regOut x.trigger_key = .ok :=
      fun x hx => hok x (List.mem_cons_of_mem s hx)
    by_cases hs : s.enabled
    · have hreg : regOut s.trigger_key = .ok := hok s (List.mem_cons_self s rest) hs
      obtain ⟨ihc, ihw, ihe, ihl⟩ :=
        ih hrest ⟨alistInsert s.trigger_key st.nextHandle st.pressHandles,
                   alistInsert s.trigger_key (st.nextHandle + 1) st.releaseHandles,
                   st.nextHandle + 2⟩
      refine ⟨fun k => ?_, ?_, ?_, fun k => ?_⟩
      · by_cases hk : s.trigger_key = k
        · subst hk
          simp [registerSlots, hs, hreg, countCall, ihc]
          omega
        · simp [registerSlots, hs, hreg, countCall, ihc, hk, beq_iff_eq]
      · simp [registerSlots, hs, hreg, ihw]
      · simp [registerSlots, hs, hreg, ihe]
      · by_cases hk : s.trigger_key = k
        · subst hk
          simp [registerSlots, hs, hreg, ihl, alistLookup_insert]
        · have hbe : (s.trigger_key == k) = false := beq_eq_false_iff_ne.mpr hk
          simp [registerSlots, hs, hreg, ihl, alistLookup_insert, hk, hbe]
    · obtain ⟨ihc, ihw, ihe, ihl⟩ := ih hrest st
      refine ⟨fun k => ?_, ?_, ?_, fun k => ?_⟩
      · simp [registerSlots, hs, ihc]
      · simp [registerSlots, hs, ihw]
      · simp [registerSlots, hs, ihe]
      · simp [registerSlots, hs, ihl]

theorem register_hooks_unhook_part (st : HookState) (k : String) :
    countCall (.onPressKey k) (unregister_hooks st).2 = 0 := by
  apply countCall_eq_zero
  intro x hx
  simp only [unregister_hooks, List.mem_append, List.mem_map] at hx
  rcases hx with ⟨p, _, hp⟩ | ⟨p, _, hp⟩ <;> (subst hp; simp)

theorem loopBody_never_unblocks (iters : List LoopIter) :
    ∀ (k out : String) (i nt : ℚ) (j : String),
      countCall (.unblockKey j) (loopBody k out i nt iters).calls = 0 := by
  induction iters with
  | nil => intro k out i nt j; rfl
  | cons it rest ih =>
    intro k out i nt j
    unfold loopBody
    cases hstop : it.stopSet
    · cases hp : it.pressed with
      | none => simp [countCall]
      | some b =>
        cases b
        · simp [countCall]
        · simp only [Bool.false_eq_true, if_false]
          split
          · split
            · simp [countCall, ih]
            · simp [countCall]
          · simp [countCall, ih]
    · simp [countCall]

theorem normalize_key_pystr (vk : String → Bool) (s : String)
    (hne : pyStripLower s ≠ "") (hv : vk (pyStripLower s) = true) :
    normalize_key vk (.pystr s) = .ok (pyStripLower s) := by
  have hs : s ≠ "" := by
    intro h
    subst h
    exact hne (by decide)
  simp [normalize_key, pyTruthy, pyStr, hs, hne, hv]

/-- C10: validate_slot treats every field as optional — a mapping missing
triggerKey, outputKey, intervalMs, passThrough and enabled (the empty
mapping included) validates, when the backend accepts the keys e and r, to
the default slot trigger e, output r, interval 50 ms, pass_through false,
enabled true. -/
theorem C10_validate_slot_defaults (vk : String → Bool) (m : List (String × PyVal))
    (hve : vk "e" = true) (hvr : vk "r" = true)
    (h1 : alistLookup "triggerKey" m = none) (h2 : alistLookup "outputKey" m = none)
    (h3 : alistLookup "intervalMs" m = none) (h4 : alistLookup "passThrough" m = none)
    (h5 : alistLookup "enabled" m = none) :
    validate_slot vk m = .ok defaultSlot := by
  have he : normalize_key vk (.pystr "e") = .ok "e" :=
    normalize_key_pystr vk "e" (by decide) hve
  have hr : normalize_key vk (.pystr "r") = .ok "r" :=
    normalize_key_pystr vk "r" (by decide) hvr
  simp only [validate_slot, pyGetD, h1, h2, h3, h4, h5, Option.getD, he, hr]
  norm_num [pyInt, coerce_bool, MIN_INTERVAL_MS, MAX_INTERVAL_MS, defaultSlot]

/-- Closed witness for C10 at the empty mapping with the demo backend. -/
theorem C10_witness : validate_slot demoValidKey [] = .ok defaultSlot :=
  C10_validate_slot_defaults demoValidKey [] rfl rfl rfl rfl rfl rfl rfl

/-- C8: _coerce_bool maps bools to themselves, the numbers 1/0 to
true/false, the whitespace-trimmed case-insensitive strings
true/1/yes/on to true and false/0/no/off to false, and the remaining
types (None, lists, dicts) by generic Python truthiness. -/
theorem C8_coerce_bool :
    (∀ b, coerce_bool (.pybool b) = b) ∧
    (coerce_bool (.pyint 1) = true ∧ coerce_bool (.pyint 0) = false ∧
     coerce_bool (.pyfloat 1) = true ∧ coerce_bool (.pyfloat 0) = false) ∧
    (∀ s : String,
       (pyStripLower s = "true" ∨ pyStripLower s = "1" ∨
        pyStripLower s = "yes" ∨ pyStripLower s = "on") →
       coerce_bool (.pystr s) = true) ∧
    (∀ s : String,
       (pyStripLower s = "false" ∨ pyStripLower s = "0" ∨
        pyStripLower s = "no" ∨ pyStripLower s = "off") →
       coerce_bool (.pystr s) = false) ∧
    (coerce_bool .pynone = pyTruthy .pynone ∧
     (∀ l, coerce_bool (.pylist l) = pyTruthy (.pylist l)) ∧
     (∀ d, coerce_bool (.pydict d) = pyTruthy (.pydict d))) := by
  refine ⟨fun b => rfl, by decide, fun s h => ?_, fun s h => ?_,
          rfl, fun l => rfl, fun d => rfl⟩
  · rcases h with h | h | h | h <;> simp [coerce_bool, h]
  · rcases h with h | h | h | h <;> simp [coerce_bool, h]

/-- Closed witness for C8 on trimmed, case-insensitive flag strings. -/
theorem C8_witness :
    coerce_bool (.pystr " YES ") = true ∧ coerce_bool (.pystr " Off ") = false :=
  ⟨C8_coerce_bool.2.2.1 " YES " (Or.inr (Or.inr (Or.inl (by decide)))),
   C8_coerce_bool.2.2.2.1 " Off " (Or.inr (Or.inr (Or.inr (by decide))))⟩

/-- C7: validate_config accepts the legacy single-slot form — triggerKey at
the root and no slots key yields exactly the one slot validated from the
root mapping — and a present-but-empty slots list, or a mapping with
neither slots nor triggerKey, yields exactly one default slot. -/
theorem C7_legacy_and_default_slots (vk : String → Bool) (m : List (String × PyVal)) :
    (∀ slot, (alistLookup "triggerKey" m).isSome = true →
       alistLookup "slots" m = none →
       validate_slot vk m = .ok slot →
       validate_config vk m = .ok ⟨[slot]⟩) ∧
    (alistLookup "slots" m = some (.pylist []) →
       validate_config vk m = .ok ⟨[defaultSlot]⟩) ∧
    (alistLookup "slots" m = none → alistLookup "triggerKey" m = none →
       validate_config vk m = .ok ⟨[defaultSlot]⟩) := by
  refine ⟨fun slot h1 h2 hs => ?_, fun h => ?_, fun h1 h2 => ?_⟩
  · have hc : (alistLookup "triggerKey" m).isSome = true ∧
        (alistLookup "slots" m).isNone = true := ⟨h1, by rw [h2]; rfl⟩
    simp only [validate_config, if_pos hc, hs]
  · have hc : ¬((alistLookup "triggerKey" m).isSome = true ∧
        (alistLookup "slots" m).isNone = true) := by
      rintro ⟨-, hn⟩
      rw [h] at hn
      simp at hn
    unfold validate_config
    rw [if_neg hc]
    simp [pyGetD, h]
  · have hc : ¬((alistLookup "triggerKey" m).isSome = true ∧
        (alistLookup "slots" m).isNone = true) := by
      rintro ⟨hs', -⟩
      rw [h2] at hs'
      simp at hs'
    unfold validate_config
    rw [if_neg hc]
    simp [pyGetD, h1]

/-- Closed witness for C7: the legacy form, an explicit empty slots list,
and the empty mapping, each with the demo backend. -/
theorem C7_witness :
    validate_config demoValidKey [("triggerKey", .pystr "x")] =
      .ok ⟨[⟨"x", "r", 50, false, true⟩]⟩ ∧
    validate_config demoValidKey [("slots", .pylist [])] = .ok ⟨[defaultSlot]⟩ ∧
    validate_config demoValidKey [] = .ok ⟨[defaultSlot]⟩ :=
  ⟨(C7_legacy_and_default_slots demoValidKey _).1 ⟨"x", "r", 50, false, true⟩ rfl rfl (by decide),
   (C7_legacy_and_default_slots demoValidKey _).2.1 rfl,
   (C7_legacy_and_default_slots demoValidKey _).2.2 rfl rfl⟩

/-- C6: when the config source fails to parse or validate, reload_config
reports the error, returns False, performs no backend call, and leaves the
whole controller state — active config, hook handles and running workers —
unchanged. -/
theorem C6_reload_keeps_state (regOut : String → CallOutcome) (e : String) (st : AppState) :
    reload_config regOut (.error e) st =
      ⟨false, st, [], ["Validation error: " ++ e], none⟩ := rfl

/-- C9: when the backend's block_key call fails with a caught exception
while arming a slot with pass_through off, arming still proceeds: the
worker is recorded as running with blocked = false and the failure is
reported as a warning, not an exception. -/
theorem C9_block_failure_still_arms (cfg : AutoFireConfig) (k : String)
    (ws : List (String × Worker)) (slot : AutoFireSlot)
    (hw : alistLookup k ws = none)
    (hs : findSlot cfg k = some slot)
    (hpt : slot.pass_through = false) :
    start_loop cfg .errCaught k ws =
      .ok ⟨alistInsert k ⟨slot, false, true, false⟩ ws, [.blockKey k],
           ["Validation error: unable to block " ++ k]⟩ := by
  simp only [start_loop, hw, startArm, hs, hpt, Bool.false_eq_true, if_false]

/-- Closed witness for C9: arming the e slot with a failing block_key. -/
theorem C9_witness :
    start_loop oneSlotCfg .errCaught "e" [] =
      .ok ⟨alistInsert "e" ⟨oneSlot, false, true, false⟩ [], [.blockKey "e"],
           ["Validation error: unable to block " ++ "e"]⟩ :=
  C9_block_failure_still_arms oneSlotCfg "e" [] oneSlot rfl rfl rfl

/-- C5 counterexample: a slot whose intervalMs is the non-integral number
50.7 validates successfully with interval 50 — the claim says any
non-integral intervalMs is rejected. -/
theorem C5_counterexample :
    validate_slot demoValidKey mInterval507 = .ok ⟨"e", "r", 50, false, true⟩ := by decide

/-- C5 (amended): validation fails with the interval error whenever Python
int() fails on intervalMs, fails with the range error when the converted
integer is outside [1,1000], and succeeds with the converted integer
otherwise; numeric values convert by truncation toward zero, so
non-integral values like 50.7 are accepted as 50. -/
theorem C5_interval_validation (vk : String → Bool) (m : List (String × PyVal))
    (t o : String)
    (hT : normalize_key vk (pyGetD m "triggerKey" (.pystr "e")) = .ok t)
    (hO : normalize_key vk (pyGetD m "outputKey" (.pystr "r")) = .ok o) :
    (∀ e, pyInt (pyGetD m "intervalMs" (.pyint 50)) = .error e →
       validate_slot vk m = .error "intervalMs must be an integer") ∧
    (∀ n, pyInt (pyGetD m "intervalMs" (.pyint 50)) = .ok n →
       ((MIN_INTERVAL_MS ≤ n ∧ n ≤ MAX_INTERVAL_MS) →
          validate_slot vk m = .ok ⟨t, o, n,
            coerce_bool (pyGetD m "passThrough" (.pybool false)),
            coerce_bool (pyGetD m "enabled" (.pybool true))⟩) ∧
       (¬(MIN_INTERVAL_MS ≤ n ∧ n ≤ MAX_INTERVAL_MS) →
          validate_slot vk m = .error "intervalMs must be between 1 and 1000 inclusive")) ∧
    (∀ q : ℚ, pyInt (.pyfloat q) = .ok (pyTrunc q)) := by
  refine ⟨fun e he => ?_, fun n hn => ⟨fun hr => ?_, fun hr => ?_⟩, fun q => rfl⟩
  · simp only [validate_slot, hT, hO, he]
  · simp only [validate_slot, hT, hO, hn, if_pos hr]
  · simp only [validate_slot, hT, hO, hn, if_neg hr]

/-- Closed witness for C5 at the 50.7 mapping: truncated to 50, in range,
accepted. -/
theorem C5_witness :
    validate_slot demoValidKey mInterval507 =
      .ok ⟨"e", "r", 50,
        coerce_bool (pyGetD mInterval507 "passThrough" (.pybool false)),
        coerce_bool (pyGetD mInterval507 "enabled" (.pybool true))⟩ :=
  ((C5_interval_validation demoValidKey mInterval507 "e" "r" rfl rfl).2.1 50 rfl).1 (by decide)

/-- C1: the catch-up branch of _loop is dead code — right after an emission
(which requires now_value ≥ next_tick) the advanced next_tick exceeds
now_value by at most one interval, so the test
next_tick - now_value > 5 * interval_s never fires and next_tick is always
just next_tick + interval_s; consequently a frozen-clock 10-interval stall
makes the loop burst 11 back-to-back pulses (the only sleeps are the two
final one-interval ones) instead of resynchronizing after roughly one
extra pulse as the claim states. -/
theorem C1_clamp_dead (i nt nowv : ℚ) (hi : 0 < i) (hle : nt ≤ nowv) :
    advanceNextTick i nowv nt = nt + i ∧
    countCall (.pressAndRelease "r") (loopBody "e" "r" 1 0 stallTrace).calls = 11 ∧
    (loopBody "e" "r" 1 0 stallTrace).sleeps = [1, 1] := by
  refine ⟨?_, ?_, ?_⟩
  · unfold advanceNextTick
    rw [if_neg]
    intro hgt
    nlinarith
  · norm_num [stallTrace, List.replicate, loopBody, advanceNextTick, countCall, max_def, min_def]
    decide
  · norm_num [stallTrace, List.replicate, loopBody, advanceNextTick, max_def, min_def]

/-- Closed witness for C1: at the burst scenario's first emission
(next_tick 0, clock at 10, interval 1) the schedule advances to 1, not to
now + interval = 11. -/
theorem C1_witness : advanceNextTick 1 10 0 = 0 + 1 :=
  (C1_clamp_dead 1 0 10 (by norm_num) (by norm_num)).1

/-- C2 counterexample: registering a config whose two enabled slots share
trigger e performs two press-hook registrations for e and emits no
conflict warning — the claim says only one is registered and a conflict is
reported. -/
theorem C2_counterexample :
    countCall (.onPressKey "e") (register_hooks allOk dupTriggerCfg ⟨[], [], 0⟩).calls = 2 ∧
    (register_hooks allOk dupTriggerCfg ⟨[], [], 0⟩).warnings = [] := by decide

/-- C2 (amended): when the backend accepts every key, _register_hooks
registers a press hook once per enabled slot with that trigger — duplicate
enabled triggers included, so a shared trigger key is registered once per
conflicting slot — prints no warning and raises nothing; autofire.py
contains no duplicate-trigger detection. -/
theorem C2_duplicate_triggers_all_registered (regOut : String → CallOutcome)
    (cfg : AutoFireConfig) (st : HookState) (hall : ∀ k, regOut k = .ok) :
    (∀ k, countCall (.onPressKey k) (register_hooks regOut cfg st).calls =
          (cfg.slots.filter (fun s => s.enabled && s.trigger_key == k)).length) ∧
    (register_hooks regOut cfg st).warnings = [] ∧
    (register_hooks regOut cfg st).err = none := by
  obtain ⟨hc, hw, he, -⟩ :=
    registerSlots_spec regOut cfg.slots (fun s _ _ => hall s.trigger_key)
      (unregister_hooks st).1
  refine ⟨fun k => ?_, ?_, ?_⟩
  · simp only [register_hooks, countCall_append, register_hooks_unhook_part, hc, Nat.zero_add]
  · simp only [register_hooks, hw]
  · simp only [register_hooks, he]

/-- Closed witness for C2 at the duplicate-trigger config: both enabled
e slots are registered, with no warning and no error. -/
theorem C2_witness :
    countCall (.onPressKey "e") (register_hooks allOk dupTriggerCfg ⟨[], [], 0⟩).calls =
      (dupTriggerCfg.slots.filter (fun s => s.enabled && s.trigger_key == "e")).length ∧
    (register_hooks allOk dupTriggerCfg ⟨[], [], 0⟩).warnings = [] ∧
    (register_hooks allOk dupTriggerCfg ⟨[], [], 0⟩).err = none :=
  ⟨(C2_duplicate_triggers_all_registered allOk dupTriggerCfg ⟨[], [], 0⟩ fun _ => rfl).1 "e",
   (C2_duplicate_triggers_all_registered allOk dupTriggerCfg ⟨[], [], 0⟩ fun _ => rfl).2.1,
   (C2_duplicate_triggers_all_registered allOk dupTriggerCfg ⟨[], [], 0⟩ fun _ => rfl).2.2⟩

/-- C3 counterexample: a runner armed with its trigger blocked whose loop
dies from an emit failure has made no unblock_key call by the time the
loop (finally block included) is finished, although block_key was called
once — the claim says unblock_key runs exactly once on this exit route and
no key stays blocked after the loop dies. -/
theorem C3_counterexample :
    countCall (.unblockKey "e") emitFailDeathCalls = 0 ∧
    countCall (.blockKey "e") emitFailDeathCalls = 1 := by
  constructor
  · norm_num [emitFailDeathCalls, start_loop, startArm, findSlot, oneSlotCfg, oneSlot,
      alistLookup, alistInsert, runnerLoop, intervalS, loopBody, countCall, MIN_INTERVAL_MS]
    decide
  · norm_num [emitFailDeathCalls, start_loop, startArm, findSlot, oneSlotCfg, oneSlot,
      alistLookup, alistInsert, runnerLoop, intervalS, loopBody, countCall, MIN_INTERVAL_MS]
    decide

/-- C3 (amended): the loop body and its finally block never call
unblock_key on any exit route; unblocking happens only in stop_loop, which,
for an entry whose trigger was blocked at arming, calls unblock_key exactly
once and deletes the entry — so the routes that go through stop_loop
(release event, emergency stop, hot-reload swap, shutdown) unblock exactly
once, while a loop that dies on its own (is_pressed false or emit failure)
leaves the key blocked until one of those stop_loop routes runs. -/
theorem C3_unblock_only_in_stop_loop :
    (∀ (k out : String) (i nt : ℚ) (iters : List LoopIter) (j : String),
       countCall (.unblockKey j) (loopBody k out i nt iters).calls = 0) ∧
    (∀ (k : String) (ws : List (String × Worker)) (w : Worker),
       alistLookup k ws = some w → w.blocked = true →
       countCall (.unblockKey k) (stop_loop k ws).calls = 1 ∧
       alistLookup k (stop_loop k ws).workers = none) := by
  refine ⟨fun k out i nt iters j => loopBody_never_unblocks iters k out i nt j,
          fun k ws w hl hb => ?_⟩
  simp only [stop_loop, hl, hb, if_pos]
  exact ⟨by simp [countCall], alistLookup_remove ws k⟩

/-- Closed witness for C3: an empty loop trace makes no unblock call, and
stopping a blocked e worker unblocks exactly once and removes the entry. -/
theorem C3_witness :
    countCall (.unblockKey "e") (loopBody "e" "r" 1 0 []).calls = 0 ∧
    (countCall (.unblockKey "e")
        (stop_loop "e" [("e", ⟨oneSlot, false, true, true⟩)]).calls = 1 ∧
     alistLookup "e" (stop_loop "e" [("e", ⟨oneSlot, false, true, true⟩)]).workers = none) :=
  ⟨C3_unblock_only_in_stop_loop.1 "e" "r" 1 0 [] "e",
   C3_unblock_only_in_stop_loop.2 "e" [("e", ⟨oneSlot, false, true, true⟩)]
     ⟨oneSlot, false, true, true⟩ rfl rfl⟩

/-- C4: apply_binding is all-or-nothing — if registering the new slot set
raises, and the previous config's own hooks register cleanly, the call
returns the wrapped RuntimeError with the previous config restored as the
active one, its enabled triggers (exactly those) re-registered in the
press-handle map, and all workers stopped. -/
theorem C4_apply_binding_restores (regOut : String → CallOutcome)
    (newCfg : AutoFireConfig) (st : AppState) (e : String)
    (hne : newCfg ≠ st.config)
    (hfail : (register_hooks regOut newCfg st.hooks).err = some e)
    (hprev : ∀ s ∈ st.config.slots, s.enabled = true → regOut s.trigger_key = .ok) :
    (apply_binding regOut newCfg st).err =
      some (.runtime ("Failed to apply new configuration: " ++ e)) ∧
    (apply_binding regOut newCfg st).state.config = st.config ∧
    (apply_binding regOut newCfg st).state.workers = [] ∧
    (∀ k, (alistLookup k (apply_binding regOut newCfg st).state.hooks.pressHandles).isSome =
          st.config.slots.any (fun s => s.enabled && s.trigger_key == k)) := by
  have hspec := registerSlots_spec regOut st.config.slots hprev
    (unregister_hooks ((registerSlots regOut newCfg.slots
      (unregister_hooks st.hooks).1).state)).1
  obtain ⟨-, -, he2, hl2⟩ := hspec
  have hwempty : (stopAllFrom (st.workers.map Prod.fst) st.workers).1 = [] :=
    stopAllFrom_empties (st.workers.map Prod.fst) st.workers
      (fun p hp => List.mem_map_of_mem Prod.fst hp)
  have hb1 : (register_hooks regOut st.config
        (register_hooks regOut newCfg st.hooks).state).err =
      (registerSlots regOut st.config.slots (unregister_hooks ((registerSlots regOut
        newCfg.slots (unregister_hooks st.hooks).1).state)).1).err := rfl
  have hb2 : (register_hooks regOut st.config
        (register_hooks regOut newCfg st.hooks).state).state.pressHandles =
      (registerSlots regOut st.config.slots (unregister_hooks ((registerSlots regOut
        newCfg.slots (unregister_hooks st.hooks).1).state)).1).state.pressHandles := rfl
  refine ⟨?_, ?_, ?_, fun k => ?_⟩
  · simp only [apply_binding, if_neg hne, hfail]
    rw [hb1, he2]
  · simp only [apply_binding, if_neg hne, hfail]
  · simp only [apply_binding, if_neg hne, hfail, hwempty]
  · simp only [apply_binding, if_neg hne, hfail]
    rw [hb2, hl2 k]
    simp [unregister_hooks, alistLookup]

/-- Closed witness for C4: applying the q config (whose registration raises
an uncaught error) over the active e config restores the e config, leaves
its trigger registered, and reports the wrapped error. -/
theorem C4_witness :
    (apply_binding failQ qCfg baseSt).err =
      some (.runtime ("Failed to apply new configuration: " ++ "register failed: q")) ∧
    (apply_binding failQ qCfg baseSt).state.config = baseSt.config ∧
    (apply_binding failQ qCfg baseSt).state.workers = [] ∧
    (alistLookup "e" (apply_binding failQ qCfg baseSt).state.hooks.pressHandles).isSome =
      baseSt.config.slots.any (fun s => s.enabled && s.trigger_key == "e") := by
  have h := C4_apply_binding_restores failQ qCfg baseSt "register failed: q"
    (by decide) (by decide) (by decide)
  exact ⟨h.1, h.2.1, h.2.2.1, h.2.2.2 "e"⟩
